import Mathlib

/-
Verification of the azure-copilot-sdlc repository against its specification.

Shallow embedding of:
  * src/services/copilot_agent.py   (CopilotAgentService.execute_agent - the process supervisor)
  * src/services/mcp_configuration.py (McpConfigurationService.get_mcp_config - config builder)
  * src/services/agent_discovery.py (AgentDiscoveryService.discover_agent - agent locator)
  * src/commands/plan.py            (plan command orchestrator)

The supervised external process is modelled by a script: the stdout lines it
emits (each stamped with the abstract wall-clock time at which it becomes
available), the time at which the process exits (closing its pipes), its exit
code and its accumulated stderr.  Wall-clock time is an abstract Nat; `start`
in the Python code corresponds to time 0.
-/

namespace Sdlc

/-- A deterministic behaviour of the supervised external process.
`lines` are the stdout lines in emission order, paired with the time at which
each becomes readable; `exitTime` is when the process exits (and its pipes hit
EOF); `exitCode` is `proc.returncode`; `stderr` is everything it wrote to
stderr. -/
structure ProcScript where
  lines : List (Nat × String)
  exitTime : Nat
  exitCode : Int
  stderr : String
deriving DecidableEq

/-- Physical well-formedness of a process script: every stdout line is emitted
no later than process exit, and `readline` never yields an empty string before
EOF (a line always contains at least its newline). -/
def Wellformed (s : ProcScript) : Prop :=
  ∀ p ∈ s.lines, p.1 ≤ s.exitTime ∧ p.2 ≠ ""

instance (s : ProcScript) : Decidable (Wellformed s) :=
  inferInstanceAs (Decidable (∀ p ∈ s.lines, p.1 ≤ s.exitTime ∧ p.2 ≠ ""))

/-- Outcome of the polling loop of `execute_agent`
(src/services/copilot_agent.py lines 113-128): either the timeout check fired
(`proc.kill(); raise TimeoutExpired`) at the given time, or the loop broke out
normally with the accumulated `output_lines` at the given time. -/
inductive LoopOutcome
  | timedOut (finish : Nat)
  | completed (acc : List String) (finish : Nat)
deriving DecidableEq

/-- The polling loop of `execute_agent` (copilot_agent.py lines 113-128).
Each iteration: `proc.stdout.readline()` (a BLOCKING read - it returns at
`max now tm` when the next line becomes available at time `tm`, or at
`max now exitTime` with an empty string once the pipe hits EOF); append the
line; then `if timeout and time.time() - start > timeout: proc.kill(); raise`;
then `if proc.poll() is not None and not line: break`.  The break can only be
taken on the EOF read (a non-empty line never breaks), which is the `[]` case
here. -/
def pollLoop (exitTime t : Nat) : List (Nat × String) → Nat → List String → LoopOutcome
  | [], now, _acc =>
    if t ≠ 0 ∧ t < max now exitTime then .timedOut (max now exitTime)
    else .completed _acc (max now exitTime)
  | (tm, line) :: rest, now, acc =>
    if t ≠ 0 ∧ t < max now tm then .timedOut (max now tm)
    else pollLoop exitTime t rest (max now tm) (acc ++ [line])

/-- The result of one supervised execution, as observable at the
`execute_agent` call boundary. `streamsClosed` records that the `finally`
block (copilot_agent.py lines 135-139) ran `proc.stdout.close()` and
`proc.stderr.close()`; `killed` records that `proc.kill()` was invoked;
`finishTime` is the abstract time at which the loop resolved. -/
structure ExecResult where
  succeeded : Bool
  captured : String
  timedOut : Bool
  killed : Bool
  streamsClosed : Bool
  finishTime : Nat
deriving DecidableEq

/-- The post-spawn portion of `execute_agent` (copilot_agent.py lines
113-155): run the polling loop; on `TimeoutExpired` the handler (lines
151-155) returns `(False, "")`; otherwise drain (the stdout drain is empty
since the loop only breaks at EOF, the stderr drain returns the full stderr),
then `(returncode == 0, stdout_text)` on success else `(False, stderr_text)`
(lines 141-149 - note: no fallback to stdout when stderr is empty).  The
`finally` block closes both streams on every path, hence
`streamsClosed := true` in all branches. -/
def runSupervised (s : ProcScript) (t : Nat) : ExecResult :=
  match pollLoop s.exitTime t s.lines 0 [] with
  | .timedOut ft =>
    { succeeded := false, captured := "", timedOut := true, killed := true,
      streamsClosed := true, finishTime := ft }
  | .completed acc ft =>
    if s.exitCode = 0 then
      { succeeded := true, captured := String.join acc, timedOut := false,
        killed := false, streamsClosed := true, finishTime := ft }
    else
      { succeeded := false, captured := s.stderr, timedOut := false,
        killed := false, streamsClosed := true, finishTime := ft }

/-- The full stdout the process emitted, in emission order. -/
def stdoutString (s : ProcScript) : String :=
  String.join (s.lines.map Prod.snd)

/-- Spawnability of the `copilot` executable, as probed by
`_check_copilot_available` (copilot_agent.py lines 28-39) and used by the
actual spawn.  The probe catches `CalledProcessError`, `FileNotFoundError`
and `TimeoutExpired` only - a `PermissionError` escapes it, and the probe is
called OUTSIDE the try block of `execute_agent` (line 65 vs line 71). -/
inductive BinaryStatus
  | available
  | notFound
  | permDenied
deriving DecidableEq

/-- `execute_agent` (copilot_agent.py lines 41-158) at the boundary.
`.error` models an exception escaping the call (there is no handler around
the availability probe).  When the binary is absent the probe returns `False`
and the function returns `(False, "")` before any process is spawned (lines
65-69); when it is present, the supervised run of the script decides the
result. -/
def execute_agent (bin : BinaryStatus) (s : ProcScript) (t : Nat) :
    Except String ExecResult :=
  match bin with
  | .notFound =>
    .ok { succeeded := false, captured := "", timedOut := false, killed := false,
          streamsClosed := false, finishTime := 0 }
  | .permDenied => .error "PermissionError"
  | .available => .ok (runSupervised s t)

/-! ## Strings, quoting and the tool-access config builder

Diagnostic strings and command-line arguments are modelled as `List Char` so
that substring containment is directly computable. -/

/-- The single-quote character (written by code point to keep source free of
apostrophe literals). -/
def sq : Char := Char.ofNat 39

/-- The double-quote character. -/
def dq : Char := Char.ofNat 34

/-- The backslash character. -/
def bsl : Char := Char.ofNat 92

/-- `pat` occurs as a contiguous run at the front of `s`. -/
def matchesAt : List Char → List Char → Bool
  | [], _ => true
  | _ :: _, [] => false
  | p :: ps, c :: cs => p = c && matchesAt ps cs

/-- `pat` occurs somewhere inside `s` (Python `pat in s`). -/
def containsSub (pat : List Char) : List Char → Bool
  | [] => pat.isEmpty
  | c :: rest => matchesAt pat (c :: rest) || containsSub pat rest

/-- Characters `shlex.quote` treats as safe, per its unsafe-character regex
(ASCII word characters plus the at sign, percent, plus, equals, colon, comma,
dot, slash and hyphen). -/
def shlexSafeChar (c : Char) : Bool :=
  c.isAlphanum || c = Char.ofNat 95 || c = Char.ofNat 64 || c = Char.ofNat 37 ||
  c = Char.ofNat 43 || c = Char.ofNat 61 || c = Char.ofNat 58 || c = Char.ofNat 44 ||
  c = Char.ofNat 46 || c = Char.ofNat 47 || c = Char.ofNat 45

/-- Python `shlex.quote`: empty strings quote to two single quotes, all-safe
strings pass through, and anything else is wrapped in single quotes with each
embedded single quote replaced by the five-character escape. -/
def shlexQuote (s : List Char) : List Char :=
  if s = [] then [sq, sq]
  else if s.all shlexSafeChar then s
  else [sq] ++ List.flatten (s.map fun c => if c = sq then [sq, dq, sq, dq, sq] else [c]) ++ [sq]

/-- The ASCII-printable fragment of `json.dumps` string escaping (double
quote, backslash and the common control characters; values appearing in the
claims are ASCII-printable). -/
def jsonEscapeChar (c : Char) : List Char :=
  if c = dq then [bsl, dq]
  else if c = bsl then [bsl, bsl]
  else if c = Char.ofNat 10 then [bsl, 'n']
  else if c = Char.ofNat 9 then [bsl, 't']
  else if c = Char.ofNat 13 then [bsl, 'r']
  else [c]

/-- A JSON string literal: quote, escaped body, quote. -/
def jstr (s : List Char) : List Char :=
  [dq] ++ List.flatten (s.map jsonEscapeChar) ++ [dq]

/-- The exact serialized MCP configuration produced by
`McpConfigurationService.get_mcp_config` (mcp_configuration.py lines 94-125):
`json.dumps` with default separators of the two-server dict, with the working
directory, organization and PAT substituted in. -/
def mcpConfigJson (wd pat org : List Char) : List Char :=
  "\x7b\"mcpServers\": \x7b\"filesystem\": \x7b\"type\": \"stdio\", \"tools\": [\"*\"], \"command\": \"npx\", \"args\": [\"-y\", \"@modelcontextprotocol/server-filesystem\", ".data
  ++ jstr wd
  ++ "]\x7d, \"azure-devops\": \x7b\"type\": \"stdio\", \"tools\": [\"*\"], \"command\": \"npx\", \"args\": [\"-y\", \"@azure-devops/mcp\", ".data
  ++ jstr org
  ++ ", \"--authentication\", \"envvar\"], \"env\": \x7b\"ADO_MCP_AUTH_TOKEN\": ".data
  ++ jstr pat
  ++ "\x7d\x7d\x7d\x7d".data

/-- `get_env_variable` (utilities/config.py lines 42-85) with the persisted
store and the interactive answer made explicit: a stored value is returned
with no output; a missing one prints the prompt text, is answered, saved, and
the `"<name> saved to <path>"` success line is printed.  The printed strings
never include the resolved value. -/
def resolveEnvVar (name promptText : List Char) (stored : Option (List Char))
    (prompted envPath : List Char) : List Char × List (List Char) :=
  match stored with
  | some v => (v, [])
  | none => (prompted, [promptText, name ++ " saved to ".data ++ envPath])

/-- `McpConfigurationService.get_mcp_config` (mcp_configuration.py lines
61-125): fail if `npx` is unavailable (with its error line), otherwise resolve
the PAT and the organization through the get-or-prompt-and-persist strategy
and return the serialized config together with everything printed.  The
organization's git-remote fallback (which runs only when `get_env_variable`
raises, and whose prompts likewise never mention the PAT) is folded into the
resolved `org` value. -/
def get_mcp_config (npxAvailable : Bool) (storedPat : Option (List Char))
    (promptedPat : List Char) (storedOrg : Option (List Char))
    (promptedOrg envPath wd : List Char) :
    Except (List Char) (List Char) × List (List Char) :=
  if npxAvailable = false then
    (.error "npx not available".data,
     ["npx is not available. Please install Node.js to use MCP servers.".data])
  else
    let patR := resolveEnvVar "ADO_MCP_AUTH_TOKEN".data
      "Azure DevOps PAT not found. Please enter your PAT:".data storedPat promptedPat envPath
    let orgR := resolveEnvVar "AZURE_DEVOPS_ORG".data
      "AZURE_DEVOPS_ORG not found. Please enter your value:".data storedOrg promptedOrg envPath
    (.ok (mcpConfigJson wd patR.1 orgR.1), patR.2 ++ orgR.2)

/-- Python truthiness of `a or b` on an optional string: `None` and the empty
string both fall through to the default. -/
def pyOr (v : Option (List Char)) (d : List Char) : List Char :=
  match v with
  | none => d
  | some s => if s = [] then d else s

/-- `self.model = model or "gpt-5-mini"` (copilot_agent.py line 26). -/
def serviceModel (initModel : Option (List Char)) : List Char :=
  pyOr initModel "gpt-5-mini".data

/-- `model_to_use = model or self.model` (copilot_agent.py line 78):
the per-call override, then the constructor value, then the default. -/
def modelToUse (initModel callModel : Option (List Char)) : List Char :=
  pyOr callModel (serviceModel initModel)

/-- The `cmd` list built by `execute_agent` (copilot_agent.py lines 79-88):
the fixed flags, the config blob, the model, the prompt, and - only when an
agent object with a non-empty name was passed (`if agent and agent.name:`) -
the `--agent` pair. -/
def buildCmd (mcpConfig modelUsed prompt : List Char) (agentName : Option (List Char)) :
    List (List Char) :=
  ["copilot".data, "--additional-mcp-config".data, mcpConfig, "--yolo".data,
   "--model".data, modelUsed, "--prompt".data, prompt] ++
  (match agentName with
   | some n => if n = [] then [] else ["--agent".data, n]
   | none => [])

/-- `cmd_str = ' '.join(shlex.quote(str(arg)) for arg in cmd)`
(copilot_agent.py line 91). -/
def cmdOneLiner (cmd : List (List Char)) : List Char :=
  List.flatten (List.intersperse " ".data (cmd.map shlexQuote))

/-- The diagnostic printed by `execute_agent` at copilot_agent.py line 92:
`console_helper.show_info(f"Running: \x7bcmd_str\x7d")`. -/
def runningDiagnostic (cmd : List (List Char)) : List Char :=
  "Running: ".data ++ cmdOneLiner cmd

/-! ## Agent discovery (src/services/agent_discovery.py) -/

/-- `AgentDiscoveryService.SEARCH_PATHS` (agent_discovery.py lines 12-17),
most specific first. -/
def SEARCH_PATHS : List (List Char) :=
  [".github/agents".data, "agents".data, "docs/agents".data, ".".data]

/-- `AgentDiscoveryService.AGENT_TYPES.get` (agent_discovery.py lines 19-23,
33). -/
def AGENT_TYPES (t : List Char) : Option (List Char) :=
  if t = "plan".data then some "planner.agent.md".data
  else if t = "develop".data then some "developer.agent.md".data
  else if t = "review".data then some "reviewer.agent.md".data
  else none

/-- `self.working_directory / search_path / agent_filename`
(agent_discovery.py line 39), with pathlib dropping the `.` component. -/
def joinPath (wd sp fn : List Char) : List Char :=
  if sp = ".".data then wd ++ "/".data ++ fn
  else wd ++ "/".data ++ sp ++ "/".data ++ fn

/-- The for-loop of `discover_agent` (agent_discovery.py lines 38-40):
return the first search path whose candidate file exists.  The filesystem is
the set (list) of existing file paths. -/
def searchLoop (fs : List (List Char)) (wd fn : List Char) :
    List (List Char) → Option (List Char)
  | [] => none
  | sp :: rest =>
    if joinPath wd sp fn ∈ fs then some sp else searchLoop fs wd fn rest

/-- The `AgentConfig` model object (models/__init__.py) as built at
agent_discovery.py lines 44-49. -/
structure AgentConfig where
  name : List Char
  path : List Char
  description : List Char
  purpose : List Char
deriving DecidableEq

/-- Python `str.capitalize`: first character upper-cased, the rest
lower-cased. -/
def capitalize (s : List Char) : List Char :=
  match s with
  | [] => []
  | c :: rest => c.toUpper :: rest.map Char.toLower

/-- The not-found diagnostic of `discover_agent` (agent_discovery.py lines
51-54): it enumerates every entry of `SEARCH_PATHS`, comma-joined. -/
def notFoundMsg (agentType fn : List Char) : List Char :=
  "Could not find ".data ++ agentType ++ " agent (".data ++ fn ++
  "). Search paths: ".data ++ List.flatten (List.intersperse ", ".data SEARCH_PATHS)

/-- What one call to `discover_agent` returns and prints. -/
structure DiscoverRun where
  result : Option AgentConfig
  logs : List (List Char)
deriving DecidableEq

/-- `AgentDiscoveryService.discover_agent` (agent_discovery.py lines 28-55):
unknown role tags produce an error line and `None` (no crash); otherwise the
first search path holding the conventional file yields the config (name =
filename up to the first dot, path = the candidate, description =
capitalized role + " agent"), and exhaustion yields `None` with the
enumerated-paths diagnostic. -/
def discover_agent (fs : List (List Char)) (wd agentType : List Char) : DiscoverRun :=
  match AGENT_TYPES agentType with
  | none => ⟨none, ["Unknown agent type: ".data ++ agentType]⟩
  | some fn =>
    match searchLoop fs wd fn SEARCH_PATHS with
    | some sp =>
      ⟨some ⟨fn.takeWhile (fun c => c ≠ '.'), joinPath wd sp fn,
             capitalize agentType ++ " agent".data, agentType⟩,
       ["Found ".data ++ agentType ++ " agent: ".data ++ joinPath wd sp fn]⟩
    | none => ⟨none, [notFoundMsg agentType fn]⟩

/-! ## The plan command orchestrator (src/commands/plan.py) -/

/-- Observable behaviour of one `plan` invocation past its input
validations. -/
structure PlanRun where
  agentFound : Bool
  diagnostics : List (List Char)
  executeCalled : Bool
  processSpawned : Bool
  cmd : List (List Char)
deriving DecidableEq

/-- The `plan` command (plan.py lines 53-102) after `validate_git_repo`,
`validate_work_item_id` and the project lookup succeed: discover the planner
agent (plan.py line 74 - the `None` result is NOT checked), build the prompt,
and call `execute_agent` on a `CopilotAgentService(work_dir)` constructed
without a model and with no per-call model override.  Inside `execute_agent`,
if the availability probe fails the call returns early with an error line;
otherwise the command line is built (embedding the config blob) and its
one-liner is printed before the process is spawned.  The prompt text is
claim-irrelevant and passed through as a parameter. -/
def planCommand (fs : List (List Char)) (wd pat org prompt : List Char)
    (copilotAvailable : Bool) : PlanRun :=
  if copilotAvailable then
    { agentFound := (discover_agent fs wd "plan".data).result.isSome
      diagnostics := (discover_agent fs wd "plan".data).logs ++
        [runningDiagnostic (buildCmd (mcpConfigJson wd pat org) (modelToUse none none)
          prompt ((discover_agent fs wd "plan".data).result.map AgentConfig.name))]
      executeCalled := true
      processSpawned := true
      cmd := buildCmd (mcpConfigJson wd pat org) (modelToUse none none) prompt
        ((discover_agent fs wd "plan".data).result.map AgentConfig.name) }
  else
    { agentFound := (discover_agent fs wd "plan".data).result.isSome
      diagnostics := (discover_agent fs wd "plan".data).logs ++
        ["Copilot CLI is not available. Please install it first.".data]
      executeCalled := true
      processSpawned := false
      cmd := [] }

/-! ## Lemmas about the polling loop -/

/-- If the timeout is disabled or not exceeded by the exit time, the loop
runs to completion, accumulating every line in emission order, and resolves
when the process exits. -/
theorem pollLoop_complete (E t : Nat) (hEt : E ≤ t ∨ t = 0) :
    ∀ (rest : List (Nat × String)) (now : Nat) (acc : List String),
      now ≤ E → (∀ p ∈ rest, p.1 ≤ E) →
      pollLoop E t rest now acc = .completed (acc ++ rest.map Prod.snd) E := by
  intro rest
  induction rest with
  | nil =>
    intro now acc hnow _
    have hmax : max now E = E := Nat.max_eq_right hnow
    simp only [pollLoop, hmax]
    rw [if_neg (by omega)]
    simp
  | cons p rest ih =>
    intro now acc hnow hall
    obtain ⟨tm, line⟩ := p
    have htm : tm ≤ E := hall (tm, line) (List.mem_cons_self _ _)
    have hmax : max now tm ≤ E := Nat.max_le.mpr ⟨hnow, htm⟩
    simp only [pollLoop]
    rw [if_neg (by omega)]
    rw [ih (max now tm) (acc ++ [line]) hmax (fun q hq => hall q (List.mem_cons_of_mem _ hq))]
    simp

/-- If the timeout is enabled and exceeded by the exit time, the loop raises
`TimeoutExpired`, at latest at the time the process itself exits (the
blocking readline returns no later than EOF). -/
theorem pollLoop_timeout (E t : Nat) (ht : t ≠ 0) (htE : t < E) :
    ∀ (rest : List (Nat × String)) (now : Nat) (acc : List String),
      now ≤ E → (∀ p ∈ rest, p.1 ≤ E) →
      ∃ ft, ft ≤ E ∧ pollLoop E t rest now acc = .timedOut ft := by
  intro rest
  induction rest with
  | nil =>
    intro now acc hnow _
    have hmax : max now E = E := Nat.max_eq_right hnow
    exact ⟨E, le_refl E, by simp only [pollLoop, hmax]; rw [if_pos ⟨ht, htE⟩]⟩
  | cons p rest ih =>
    intro now acc hnow hall
    obtain ⟨tm, line⟩ := p
    have htm : tm ≤ E := hall (tm, line) (List.mem_cons_self _ _)
    have hmax : max now tm ≤ E := Nat.max_le.mpr ⟨hnow, htm⟩
    by_cases hc : t ≠ 0 ∧ t < max now tm
    · exact ⟨max now tm, hmax, by simp only [pollLoop]; rw [if_pos hc]⟩
    · obtain ⟨ft, hft, heq⟩ :=
        ih (max now tm) (acc ++ [line]) hmax (fun q hq => hall q (List.mem_cons_of_mem _ hq))
      exact ⟨ft, hft, by simp only [pollLoop]; rw [if_neg hc]; exact heq⟩

/-- Times of every well-formed script line are bounded by the exit time. -/
theorem wellformed_times (s : ProcScript) (hw : Wellformed s) :
    ∀ p ∈ s.lines, p.1 ≤ s.exitTime :=
  fun p hp => (hw p hp).1

/-! ## Claim theorems for the process supervisor -/

/-- Claim C2: for every supervised execution that spawns and completes, the
result's `succeeded` flag is true iff the process exited with status zero and
no timeout occurred (the timeout occurring exactly when it is enabled and the
process outlives it), and when `succeeded` is true the captured text is
exactly the full accumulated stdout, untruncated and in emission order. -/
theorem execute_agent_success_iff (s : ProcScript) (t : Nat) (hw : Wellformed s) :
    ((runSupervised s t).succeeded = true ↔
      (s.exitCode = 0 ∧ (t = 0 ∨ s.exitTime ≤ t))) ∧
    ((runSupervised s t).succeeded = true →
      (runSupervised s t).captured = stdoutString s) := by
  have hall := wellformed_times s hw
  by_cases hto : t ≠ 0 ∧ t < s.exitTime
  · obtain ⟨ft, _, heq⟩ :=
      pollLoop_timeout s.exitTime t hto.1 hto.2 s.lines 0 [] (Nat.zero_le _) hall
    unfold runSupervised
    rw [heq]
    constructor
    · simp only [ExecResult.succeeded]
      constructor
      · intro h; cases h
      · rintro ⟨_, h⟩; omega
    · intro h; cases h
  · have hEt : s.exitTime ≤ t ∨ t = 0 := by omega
    have heq := pollLoop_complete s.exitTime t hEt s.lines 0 [] (Nat.zero_le _) hall
    unfold runSupervised
    rw [heq]
    dsimp only
    by_cases hc : s.exitCode = 0
    · rw [if_pos hc]
      constructor
      · constructor
        · intro _
          exact ⟨hc, by omega⟩
        · intro _
          rfl
      · intro _
        simp [stdoutString]
    · rw [if_neg hc]
      constructor
      · constructor
        · intro h
          cases h
        · intro h
          exact absurd h.1 hc
      · intro h
        cases h

/-- Witness for C2: a process that prints one line at time 1 and exits 0 at
time 2 under a 30-unit timeout succeeds with exactly its stdout captured. -/
theorem execute_agent_success_iff_witness :
    Wellformed ⟨[(1, "hello\n")], 2, 0, "e"⟩ ∧
    (((runSupervised ⟨[(1, "hello\n")], 2, 0, "e"⟩ 30).succeeded = true ↔
       ((0 : Int) = 0 ∧ ((30 : Nat) = 0 ∨ (2 : Nat) ≤ 30))) ∧
     ((runSupervised ⟨[(1, "hello\n")], 2, 0, "e"⟩ 30).succeeded = true →
       (runSupervised ⟨[(1, "hello\n")], 2, 0, "e"⟩ 30).captured =
         stdoutString ⟨[(1, "hello\n")], 2, 0, "e"⟩)) :=
  ⟨by decide, execute_agent_success_iff ⟨[(1, "hello\n")], 2, 0, "e"⟩ 30 (by decide)⟩

/-- Claim C3: whenever the process outlives an enabled timeout, the
supervised execution resolves with `succeeded = false`, an empty captured
text (partial output discarded), and `proc.kill()` has been invoked before
the call returns. -/
theorem execute_agent_timeout_kills (s : ProcScript) (t : Nat) (hw : Wellformed s)
    (ht : 0 < t) (hrt : t < s.exitTime) :
    (runSupervised s t).succeeded = false ∧ (runSupervised s t).captured = "" ∧
    (runSupervised s t).killed = true := by
  obtain ⟨ft, _, heq⟩ := pollLoop_timeout s.exitTime t (by omega) hrt s.lines 0 []
    (Nat.zero_le _) (wellformed_times s hw)
  unfold runSupervised
  rw [heq]
  exact ⟨rfl, rfl, rfl⟩

/-- Witness for C3: a silent process that would exit at time 8 under a
5-unit timeout is killed with nothing captured. -/
theorem execute_agent_timeout_kills_witness :
    Wellformed ⟨[(3, "x\n")], 8, 0, "y"⟩ ∧ (0 : Nat) < 5 ∧ (5 : Nat) < 8 ∧
    ((runSupervised ⟨[(3, "x\n")], 8, 0, "y"⟩ 5).succeeded = false ∧
     (runSupervised ⟨[(3, "x\n")], 8, 0, "y"⟩ 5).captured = "" ∧
     (runSupervised ⟨[(3, "x\n")], 8, 0, "y"⟩ 5).killed = true) :=
  ⟨by decide, by decide, by decide,
   execute_agent_timeout_kills ⟨[(3, "x\n")], 8, 0, "y"⟩ 5 (by decide) (by decide) (by decide)⟩

/-- Counterexample to C4 as stated: the stdout read is `proc.stdout.readline()`,
a blocking call, so for a process that emits no output (the specification's
own `sleep 10` with timeout 1 scenario) the first timeout re-evaluation only
happens when the process itself exits at time 10: the call does not resolve
within the claimed small bound after the 1-unit deadline. -/
theorem prompt_timeout_counterexample :
    runSupervised ⟨[], 10, 0, ""⟩ 1 =
      { succeeded := false, captured := "", timedOut := true, killed := true,
        streamsClosed := true, finishTime := 10 } ∧
    ¬ ((10 : Nat) ≤ 1 + 1) := by decide

/-- Claim C4, amended: every loop iteration does re-evaluate the elapsed time
against the timeout after its read returns, so an exceeded (enabled) timeout
is always detected - but because the read is a blocking `readline`, detection
is only guaranteed by the time the silent process itself exits, not promptly
after the deadline. -/
theorem timeout_detected_by_process_exit (s : ProcScript) (t : Nat) (hw : Wellformed s)
    (ht : 0 < t) (hrt : t < s.exitTime) :
    (runSupervised s t).timedOut = true ∧
    (runSupervised s t).finishTime ≤ s.exitTime := by
  obtain ⟨ft, hle, heq⟩ := pollLoop_timeout s.exitTime t (by omega) hrt s.lines 0 []
    (Nat.zero_le _) (wellformed_times s hw)
  unfold runSupervised
  rw [heq]
  exact ⟨rfl, hle⟩

/-- Witness for the amended C4: a silent process exiting at time 7 under a
2-unit timeout is detected as timed out no later than time 7. -/
theorem timeout_detected_by_process_exit_witness :
    Wellformed ⟨[], 7, 0, ""⟩ ∧ (0 : Nat) < 2 ∧ (2 : Nat) < 7 ∧
    ((runSupervised ⟨[], 7, 0, ""⟩ 2).timedOut = true ∧
     (runSupervised ⟨[], 7, 0, ""⟩ 2).finishTime ≤ 7) :=
  ⟨by decide, by decide, by decide,
   timeout_detected_by_process_exit ⟨[], 7, 0, ""⟩ 2 (by decide) (by decide) (by decide)⟩

/-- Counterexample to C5 as stated: a process that exits 1 with empty stderr
after writing "out\n" to stdout yields `capturedText = ""` - the claimed
fallback to accumulated stdout does not happen (copilot_agent.py lines
147-149 return `stderr_text` unconditionally on non-zero exit). -/
theorem stderr_fallback_counterexample :
    runSupervised ⟨[(0, "out\n")], 1, 1, ""⟩ 30 =
      { succeeded := false, captured := "", timedOut := false, killed := false,
        streamsClosed := true, finishTime := 1 } ∧
    stdoutString ⟨[(0, "out\n")], 1, 1, ""⟩ = "out\n" ∧
    ("" : String) ≠ "out\n" := by decide

/-- Claim C5, amended: for every supervised execution that completes with a
non-zero exit code, the captured text equals the full accumulated stderr -
including when that stderr is empty: there is no fallback to stdout. -/
theorem nonzero_exit_captures_stderr (s : ProcScript) (t : Nat) (hw : Wellformed s)
    (hEt : s.exitTime ≤ t ∨ t = 0) (hc : s.exitCode ≠ 0) :
    (runSupervised s t).succeeded = false ∧
    (runSupervised s t).captured = s.stderr := by
  have heq := pollLoop_complete s.exitTime t hEt s.lines 0 []
    (Nat.zero_le _) (wellformed_times s hw)
  unfold runSupervised
  rw [heq]
  dsimp only
  rw [if_neg hc]
  exact ⟨rfl, rfl⟩

/-- Witness for the amended C5: exit code 2 at time 1 with stderr "err"
under a 9-unit timeout captures exactly "err". -/
theorem nonzero_exit_captures_stderr_witness :
    Wellformed ⟨[(0, "a\n")], 1, 2, "err"⟩ ∧
    ((1 : Nat) ≤ 9 ∨ (9 : Nat) = 0) ∧ (2 : Int) ≠ 0 ∧
    ((runSupervised ⟨[(0, "a\n")], 1, 2, "err"⟩ 9).succeeded = false ∧
     (runSupervised ⟨[(0, "a\n")], 1, 2, "err"⟩ 9).captured = "err") :=
  ⟨by decide, by decide, by decide,
   nonzero_exit_captures_stderr ⟨[(0, "a\n")], 1, 2, "err"⟩ 9 (by decide)
     (by decide) (by decide)⟩

/-- Counterexample to C6 as stated: when spawning fails with permission
denied, `execute_agent` does not return `succeeded = false` with empty
captured text - the `PermissionError` raised by the availability probe
escapes the call (it is raised outside the try block and is not among the
exception types the probe catches). -/
theorem launch_failed_counterexample :
    execute_agent .permDenied ⟨[], 5, 0, ""⟩ 300 = .error "PermissionError" ∧
    (execute_agent .permDenied ⟨[], 5, 0, ""⟩ 300).isOk = false := by
  exact ⟨rfl, rfl⟩

/-- Claim C6, amended: when the executable is not found, the availability
probe fails and `execute_agent` returns `succeeded = false` with empty
captured text, without spawning anything; when spawning is denied by
permissions, the probe's `PermissionError` propagates out of `execute_agent`
instead of a result being returned. -/
theorem launch_failed_behavior (s : ProcScript) (t : Nat) :
    execute_agent .notFound s t =
      .ok { succeeded := false, captured := "", timedOut := false, killed := false,
            streamsClosed := false, finishTime := 0 } ∧
    execute_agent .permDenied s t = .error "PermissionError" :=
  ⟨rfl, rfl⟩

/-- Claim C9: for every execution that reaches the Running state (the binary
was spawnable and the polling loop entered), both redirected streams are
closed before `execute_agent` returns, on every exit path - the `finally`
block at copilot_agent.py lines 135-139 runs both on normal completion and
when `TimeoutExpired` (or any exception raised during streaming) propagates
through it. -/
theorem streams_always_closed (s : ProcScript) (t : Nat) :
    (runSupervised s t).streamsClosed = true := by
  unfold runSupervised
  cases pollLoop s.exitTime t s.lines 0 [] with
  | timedOut ft => rfl
  | completed acc ft =>
    dsimp only
    by_cases hc : s.exitCode = 0
    · rw [if_pos hc]
    · rw [if_neg hc]

/-! ## Lemmas about substring containment and the search loop -/

/-- Containment in a suffix extends to the whole concatenation. -/
theorem containsSub_append_right (pat a b : List Char)
    (h : containsSub pat b = true) : containsSub pat (a ++ b) = true := by
  induction a with
  | nil => simpa using h
  | cons x xs ih => simp [containsSub, ih]

/-- The discovery loop skips every earlier directory whose candidate file is
absent and stops at the first directory whose candidate exists. -/
theorem searchLoop_first (fs : List (List Char)) (wd fn : List Char) :
    ∀ (pre : List (List Char)) (sp : List Char) (post : List (List Char)),
      (∀ p ∈ pre, joinPath wd p fn ∉ fs) → joinPath wd sp fn ∈ fs →
      searchLoop fs wd fn (pre ++ sp :: post) = some sp := by
  intro pre
  induction pre with
  | nil =>
    intro sp post _ hsp
    simp only [List.nil_append, searchLoop]
    rw [if_pos hsp]
  | cons q pre ih =>
    intro sp post hpre hsp
    simp only [List.cons_append, searchLoop]
    rw [if_neg (hpre q (List.mem_cons_self _ _))]
    exact ih sp post (fun r hr => hpre r (List.mem_cons_of_mem _ hr)) hsp

/-- The discovery loop exhausts a list in which no candidate exists. -/
theorem searchLoop_none (fs : List (List Char)) (wd fn : List Char) :
    ∀ l : List (List Char), (∀ sp ∈ l, joinPath wd sp fn ∉ fs) →
      searchLoop fs wd fn l = none := by
  intro l
  induction l with
  | nil =>
    intro _
    rfl
  | cons sp rest ih =>
    intro h
    simp only [searchLoop]
    rw [if_neg (h sp (List.mem_cons_self _ _))]
    exact ih (fun q hq => h q (List.mem_cons_of_mem _ hq))

/-! ## Claim theorems for the agent locator -/

/-- Claim C8: for every recognized role and filesystem, `discover_agent`
walks the fixed ordered 4-element search-path list and returns the config for
the first directory holding the role's conventional filename; when no
directory holds it, it returns `None` and its single diagnostic line contains
every one of the 4 searched paths; an unrecognized role yields an error line
and `None` rather than a crash. -/
theorem discover_agent_spec (fs : List (List Char)) (wd role : List Char) :
    (AGENT_TYPES role = none →
       (discover_agent fs wd role).result = none ∧
       (discover_agent fs wd role).logs = ["Unknown agent type: ".data ++ role]) ∧
    (∀ fn, AGENT_TYPES role = some fn →
       ((∀ sp ∈ SEARCH_PATHS, joinPath wd sp fn ∉ fs) →
          (discover_agent fs wd role).result = none ∧
          SEARCH_PATHS.length = 4 ∧
          (discover_agent fs wd role).logs = [notFoundMsg role fn] ∧
          (∀ sp ∈ SEARCH_PATHS, containsSub sp (notFoundMsg role fn) = true)) ∧
       (∀ (pre : List (List Char)) (sp : List Char) (post : List (List Char)),
          SEARCH_PATHS = pre ++ sp :: post →
          (∀ p ∈ pre, joinPath wd p fn ∉ fs) → joinPath wd sp fn ∈ fs →
          (discover_agent fs wd role).result =
            some ⟨fn.takeWhile (fun c => c ≠ '.'), joinPath wd sp fn,
                  capitalize role ++ " agent".data, role⟩)) := by
  constructor
  · intro h
    simp [discover_agent, h]
  · intro fn h
    constructor
    · intro hnone
      have hsl := searchLoop_none fs wd fn SEARCH_PATHS hnone
      refine ⟨by simp [discover_agent, h, hsl], rfl, by simp [discover_agent, h, hsl], ?_⟩
      intro sp hsp
      fin_cases hsp <;>
        · unfold notFoundMsg
          apply containsSub_append_right
          decide
    · intro pre sp post hsplit hpre hsp
      have hsl : searchLoop fs wd fn SEARCH_PATHS = some sp := by
        rw [hsplit]
        exact searchLoop_first fs wd fn pre sp post hpre hsp
      simp [discover_agent, h, hsl]

/-- Witness for C8: with only `w/agents/reviewer.agent.md` on disk, the
review role resolves through the second search path, skipping the absent
`.github/agents` candidate. -/
theorem discover_agent_spec_witness :
    AGENT_TYPES "review".data = some "reviewer.agent.md".data ∧
    (discover_agent ["w/agents/reviewer.agent.md".data] "w".data "review".data).result =
      some ⟨"reviewer.agent.md".data.takeWhile (fun c => c ≠ '.'),
            joinPath "w".data "agents".data "reviewer.agent.md".data,
            capitalize "review".data ++ " agent".data, "review".data⟩ :=
  ⟨by decide,
   ((discover_agent_spec ["w/agents/reviewer.agent.md".data] "w".data "review".data).2
       "reviewer.agent.md".data (by decide)).2
     [".github/agents".data] "agents".data ["docs/agents".data, ".".data]
     (by decide) (by decide) (by decide)⟩

/-! ## Claim theorems for the plan orchestrator and the credential -/

/-- Counterexample to C7 as stated: with an empty filesystem the planner
agent is not found, yet the plan command does not abort - it still spawns
the external agent-execution process (plan.py never checks
`discover_agent`'s `None` result before calling `execute_agent`). -/
theorem plan_not_found_counterexample :
    (discover_agent [] "w".data "plan".data).result = none ∧
    (planCommand [] "w".data "p".data "o".data "hi".data true).agentFound = false ∧
    (planCommand [] "w".data "p".data "o".data "hi".data true).executeCalled = true ∧
    (planCommand [] "w".data "p".data "o".data "hi".data true).processSpawned = true := by
  decide

/-- Claim C7, amended: when the agent locator returns not-found, the
searched-paths diagnostic is reported, but the command does not abort: it
still calls `execute_agent`, which spawns the external process with the
command line lacking any `--agent` argument (8 fixed arguments only). -/
theorem plan_agent_not_found_behavior (fs : List (List Char))
    (wd pat org prompt : List Char)
    (hd : (discover_agent fs wd "plan".data).result = none) :
    (planCommand fs wd pat org prompt true).diagnostics =
      [notFoundMsg "plan".data "planner.agent.md".data,
       runningDiagnostic (buildCmd (mcpConfigJson wd pat org) "gpt-5-mini".data
         prompt none)] ∧
    (planCommand fs wd pat org prompt true).processSpawned = true ∧
    (planCommand fs wd pat org prompt true).executeCalled = true ∧
    (planCommand fs wd pat org prompt true).cmd =
      ["copilot".data, "--additional-mcp-config".data, mcpConfigJson wd pat org,
       "--yolo".data, "--model".data, "gpt-5-mini".data, "--prompt".data, prompt] := by
  have hAT : AGENT_TYPES "plan".data = some "planner.agent.md".data := by decide
  rcases hsl : searchLoop fs wd "planner.agent.md".data SEARCH_PATHS with _ | sp
  · have hlogs : (discover_agent fs wd "plan".data).logs =
        [notFoundMsg "plan".data "planner.agent.md".data] := by
      simp [discover_agent, hAT, hsl]
    refine ⟨?_, rfl, rfl, ?_⟩
    · simp only [planCommand, if_pos trivial, hd, hlogs]
      simp [buildCmd, modelToUse, serviceModel, pyOr]
    · simp only [planCommand, if_pos trivial, hd]
      simp [buildCmd, modelToUse, serviceModel, pyOr]
  · exfalso
    have : (discover_agent fs wd "plan".data).result.isSome = true := by
      simp [discover_agent, hAT, hsl]
    rw [hd] at this
    cases this

/-- Witness for the amended C7: the concrete empty-filesystem run reported
the enumerated search paths and still spawned the process. -/
theorem plan_agent_not_found_behavior_witness :
    (discover_agent [] "wd0".data "plan".data).result = none ∧
    (planCommand [] "wd0".data "p0".data "o0".data "hi".data true).cmd =
      ["copilot".data, "--additional-mcp-config".data,
       mcpConfigJson "wd0".data "p0".data "o0".data,
       "--yolo".data, "--model".data, "gpt-5-mini".data, "--prompt".data, "hi".data] :=
  ⟨by decide,
   (plan_agent_not_found_behavior [] "wd0".data "p0".data "o0".data "hi".data
     (by decide)).2.2.2⟩

/-- Counterexample to C1 as stated: with PAT value `SECRETPAT123`, the
diagnostic output printed during `execute_agent` (the `Running: <cmd_str>`
line of copilot_agent.py line 92, which renders the full command line
including the serialized MCP config) contains the raw credential verbatim. -/
theorem credential_leak_counterexample :
    containsSub "SECRETPAT123".data
      (List.flatten (planCommand [] "/w".data "SECRETPAT123".data "org1".data
        "hi".data true).diagnostics) = true := by
  set_option maxRecDepth 40000 in decide

/-- Claim C1, amended: the config builder itself never embeds the credential
in anything it prints - its printed diagnostics are identical whatever the
stored or prompted credential value is - but the process supervisor's
command-line debug diagnostic does embed the serialized config and hence the
raw credential. -/
theorem builder_logs_credential_independent (npx : Bool) (v1 v2 p1 p2 : List Char)
    (storedOrg : Option (List Char)) (promptedOrg envPath wd : List Char) :
    (get_mcp_config npx (some v1) p1 storedOrg promptedOrg envPath wd).2 =
      (get_mcp_config npx (some v2) p2 storedOrg promptedOrg envPath wd).2 ∧
    (get_mcp_config npx none p1 storedOrg promptedOrg envPath wd).2 =
      (get_mcp_config npx none p2 storedOrg promptedOrg envPath wd).2 := by
  cases npx <;> cases storedOrg <;> simp [get_mcp_config, resolveEnvVar]

/-- Claim C10: with no per-call model override and a service constructed
without a model argument, the resolved model identifier is `gpt-5-mini` and
it is what the command line carries after `--model`; the plan command (which
exposes no model option) always builds its command this way. -/
theorem default_model_is_gpt5mini :
    modelToUse none none = "gpt-5-mini".data ∧
    (∀ (fs : List (List Char)) (wd pat org prompt : List Char),
       (planCommand fs wd pat org prompt true).cmd[4]? = some "--model".data ∧
       (planCommand fs wd pat org prompt true).cmd[5]? = some "gpt-5-mini".data) := by
  constructor
  · rfl
  · intro fs wd pat org prompt
    simp only [planCommand, if_pos trivial]
    unfold buildCmd
    constructor
    · rw [List.getElem?_append_left (by simp)]
      rfl
    · rw [List.getElem?_append_left (by simp)]
      rfl

end Sdlc
